import Mathlib

/-!
Shallow embedding of `create-icon.py` (IDSnap app-icon generator).

The script has two functions:
* `create_icon(size, output_path)` draws a badge circle, a synthetic
  vertical gradient, the text "ID" with a drop shadow, and a small camera
  glyph onto a transparent RGBA canvas, then saves it as a PNG;
* `main()` iterates a fixed folder→size table, creates each directory and
  calls `create_icon` twice per folder (standard and round icon).

Drawing is modelled as the ordered list of PIL draw calls the script makes
(the gradient overlay is drawn between the badge and the text, matching the
`alpha_composite` layering in the source).  Fonts are abstracted to the one
metric the script reads from them: the bounding box `draw.textbbox` returns
for the string "ID".  Python `//` on integers is floor division, embedded as
`Int.fdiv`; Python `int(30 * (i / h))` for `0 ≤ i < h` equals `30*i/h` in
exact arithmetic (truncation of a nonnegative value is floor), embedded as
`Nat` division, with the zero-divisor case tracked by an `Option`.
-/

namespace IDSnap

/-- A PIL fill colour: the script passes either an RGB 3-tuple (opaque) or
an RGBA 4-tuple. -/
inductive Fill where
  | rgb (r g b : Nat)
  | rgba (r g b a : Nat)
deriving DecidableEq, Repr

/-- One PIL draw call made by `create_icon`: `draw.ellipse`,
`draw.rectangle` (each with an `[x0, y0, x1, y1]` bounding box) or
`draw.text` at a position. -/
inductive DrawOp where
  | ellipse (x0 y0 x1 y1 : Int) (fill : Fill)
  | rectangle (x0 y0 x1 y1 : Int) (fill : Fill)
  | text (x y : Int) (s : String) (fill : Fill)
deriving DecidableEq, Repr

/-- The bounding box `draw.textbbox((0, 0), "ID", font=font)` returns. -/
structure TextBBox where
  x0 : Int
  y0 : Int
  x1 : Int
  y1 : Int
deriving DecidableEq, Repr

/-- A font, abstracted to the only datum `create_icon` reads from it: the
bounding box of the string "ID". -/
structure Font where
  idBBox : TextBBox
deriving DecidableEq, Repr

/-- The font environment `create_icon` runs in: whether each of the two
hard-coded truetype paths loads (`ImageFont.truetype` raising is modelled
as `none`), and the built-in `ImageFont.load_default()` font, which always
succeeds. -/
structure FontEnv where
  dejavu : Option Font
  arial : Option Font
  fallback : Font
deriving DecidableEq, Repr

/-- The try/except chain of `create_icon` lines 41–49: try
DejaVuSans-Bold.ttf, on any failure try Arial.ttf, on any failure use
`ImageFont.load_default()`.  Total: it always yields a font. -/
def resolve_font (env : FontEnv) : Font :=
  match env.dejavu with
  | some f => f
  | none =>
    match env.arial with
    | some f => f
    | none => env.fallback

/-- Python floor division `//` on integers. -/
def pydiv (a b : Int) : Int := Int.fdiv a b

/-- `margin = size // 20` (line 23). -/
def margin (size : Nat) : Nat := size / 20

/-- `font_size = max(size // 8, 12)` (line 39). -/
def font_size (size : Nat) : Nat := max (size / 8) 12

/-- `shadow_offset = max(1, size // 100)` (line 61). -/
def shadow_offset (size : Nat) : Nat := max 1 (size / 100)

/-- `cam_size = size // 6` (line 69). -/
def cam_size (size : Nat) : Nat := size / 6

/-- `lens_size = cam_size // 3` (line 78). -/
def lens_size (size : Nat) : Nat := cam_size size / 3

/-- `text_width = bbox[2] - bbox[0]` (line 54). -/
def text_width (bbox : TextBBox) : Int := bbox.x1 - bbox.x0

/-- `text_height = bbox[3] - bbox[1]` (line 55). -/
def text_height (bbox : TextBBox) : Int := bbox.y1 - bbox.y0

/-- `text_x = (size - text_width) // 2` (line 57). -/
def text_x (size : Nat) (bbox : TextBBox) : Int :=
  pydiv ((size : Int) - text_width bbox) 2

/-- `text_y = (size - text_height) // 2 - size // 12` (line 58). -/
def text_y (size : Nat) (bbox : TextBBox) : Int :=
  pydiv ((size : Int) - text_height bbox) 2 - pydiv (size : Int) 12

/-- `cam_x = (size - cam_size) // 2` (line 70). -/
def cam_x (size : Nat) : Nat := (size - cam_size size) / 2

/-- `cam_y = text_y + text_height + size // 20` (line 71). -/
def cam_y (size : Nat) (bbox : TextBBox) : Int :=
  text_y size bbox + text_height bbox + pydiv (size : Int) 20

/-- `lens_x = cam_x + (cam_size - lens_size) // 2` (line 79). -/
def lens_x (size : Nat) : Nat :=
  cam_x size + (cam_size size - lens_size size) / 2

/-- `lens_y = cam_y + (cam_size // 2 - lens_size) // 2` (line 80). -/
def lens_y (size : Nat) (bbox : TextBBox) : Int :=
  cam_y size bbox + pydiv (pydiv (cam_size size : Int) 2 - (lens_size size : Int)) 2

/-- The badge circle (line 24):
`draw.ellipse([margin, margin, size-margin, size-margin], fill=bg_color)`
with `bg_color = (33, 150, 243)`. -/
def badge_op (size : Nat) : DrawOp :=
  .ellipse (margin size) (margin size)
    ((size : Int) - margin size) ((size : Int) - margin size)
    (.rgb 33 150 243)

/-- `alpha = int(30 * (i / (size//2)))` (line 31), with the divisor passed
explicitly: `none` models the Python `ZeroDivisionError` when the divisor is
zero; otherwise the value is `⌊30·i / halfSize⌋`. -/
def band_alpha (halfSize i : Nat) : Option Nat :=
  if halfSize = 0 then none else some (30 * i / halfSize)

/-- The gradient-alpha computations the loop on lines 30–33 performs, one
per band index `i` in `range(size // 2)`. -/
def gradient_alphas (size : Nat) : List (Option Nat) :=
  (List.range (size / 2)).map (fun i => band_alpha (size / 2) i)

/-- Band `i` of the gradient overlay (lines 32–33):
`gradient_draw.ellipse([margin, margin + i, size-margin, size-margin],
fill=(0, 0, 0, alpha))`. -/
def band (size i : Nat) : DrawOp :=
  .ellipse (margin size) (margin size + i)
    ((size : Int) - margin size) ((size : Int) - margin size)
    (.rgba 0 0 0 (30 * i / (size / 2)))

/-- All gradient bands, in loop order (lines 30–33). -/
def gradient_ops (size : Nat) : List DrawOp :=
  (List.range (size / 2)).map (band size)

/-- The text shadow (lines 62–63): `draw.text((text_x + shadow_offset,
text_y + shadow_offset), "ID", fill=(0, 0, 0, 100), font=font)`. -/
def shadow_text_op (size : Nat) (bbox : TextBBox) : DrawOp :=
  .text (text_x size bbox + shadow_offset size)
    (text_y size bbox + shadow_offset size) "ID" (.rgba 0 0 0 100)

/-- The main text (line 66): `draw.text((text_x, text_y), "ID",
fill=(255, 255, 255), font=font)`. -/
def main_text_op (size : Nat) (bbox : TextBBox) : DrawOp :=
  .text (text_x size bbox) (text_y size bbox) "ID" (.rgb 255 255 255)

/-- The camera body (lines 74–75): `draw.rectangle([cam_x, cam_y,
cam_x + cam_size, cam_y + cam_size//2], fill=accent_color)` with
`accent_color = (255, 193, 7)`. -/
def camera_rect (size : Nat) (bbox : TextBBox) : DrawOp :=
  .rectangle (cam_x size) (cam_y size bbox)
    ((cam_x size : Int) + cam_size size)
    (cam_y size bbox + pydiv (cam_size size : Int) 2)
    (.rgb 255 193 7)

/-- The camera lens (lines 81–82): `draw.ellipse([lens_x, lens_y,
lens_x + lens_size, lens_y + lens_size], fill=(0, 0, 0, 150))`. -/
def lens_op (size : Nat) (bbox : TextBBox) : DrawOp :=
  .ellipse (lens_x size) (lens_y size bbox)
    ((lens_x size : Int) + lens_size size)
    (lens_y size bbox + (lens_size size : Int))
    (.rgba 0 0 0 150)

/-- The in-memory image `create_icon` builds: `Image.new` in mode RGBA at
`(size, size)` filled `(0, 0, 0, 0)`, then the draw calls in source order (the
gradient overlay is alpha-composited over the badge before the text is
drawn, so the layering order equals the source order). -/
structure Image where
  width : Nat
  height : Nat
  mode : String
  background : Fill
  ops : List DrawOp
deriving DecidableEq, Repr

/-- `create_icon(size, output_path)` up to the save: the image drawn, as a
function of `size` and the font environment (the output path does not
influence the drawn content). -/
def create_icon (size : Nat) (env : FontEnv) : Image :=
  let bbox := (resolve_font env).idBBox
  { width := size
    height := size
    mode := "RGBA"
    background := .rgba 0 0 0 0
    ops := badge_op size ::
      (gradient_ops size ++
        [shadow_text_op size bbox, main_text_op size bbox,
         camera_rect size bbox, lens_op size bbox]) }

/-- A file written by `img.save(output_path, PNG)` (line 85). -/
structure SavedFile where
  path : String
  format : String
  img : Image
deriving DecidableEq, Repr

/-- One full `create_icon(size, output_path)` call: renders and saves the
image as a PNG at the given path. -/
def create_icon_file (size : Nat) (path : String) (env : FontEnv) : SavedFile :=
  { path := path, format := "PNG", img := create_icon size env }

/-- The folder → pixel-size table of `main` (lines 92–98), in insertion
order. -/
def sizes : List (String × Nat) :=
  [("mipmap-mdpi", 48), ("mipmap-hdpi", 72), ("mipmap-xhdpi", 96),
   ("mipmap-xxhdpi", 144), ("mipmap-xxxhdpi", 192)]

/-- `base_path = "android/app/src/main/res"` (line 100). -/
def base_path : String := "android/app/src/main/res"

/-- `os.path.join` on POSIX. -/
def path_join (a b : String) : String := a ++ "/" ++ b

/-- A filesystem effect of `main`: `os.makedirs(path, exist_ok=True)`
(idempotent directory creation) or a PNG file write. -/
inductive FsEvent where
  | makedirs (path : String)
  | write (file : SavedFile)
deriving DecidableEq, Repr

/-- The standard icon written for one table entry (lines 110–111). -/
def standard_icon (env : FontEnv) (p : String × Nat) : SavedFile :=
  create_icon_file p.2 (path_join (path_join base_path p.1) "ic_launcher.png") env

/-- The round icon written for one table entry (lines 114–115): same
renderer, same size, different filename. -/
def round_icon (env : FontEnv) (p : String × Nat) : SavedFile :=
  create_icon_file p.2 (path_join (path_join base_path p.1) "ic_launcher_round.png") env

/-- The filesystem effects of one iteration of the `main` loop
(lines 105–115): create the folder, write the standard icon, write the
round icon. -/
def folder_events (env : FontEnv) (p : String × Nat) : List FsEvent :=
  [.makedirs (path_join base_path p.1),
   .write (standard_icon env p),
   .write (round_icon env p)]

/-- All filesystem effects of `main`, in execution order. -/
def main_events (env : FontEnv) : List FsEvent :=
  sizes.flatMap (folder_events env)

/-- The directory paths a list of events creates. -/
def dirs_created (evs : List FsEvent) : List String :=
  evs.filterMap fun e =>
    match e with
    | .makedirs p => some p
    | .write _ => none

/-- The files a list of events writes: path, format and pixel width. -/
def files_written (evs : List FsEvent) : List (String × String × Nat) :=
  evs.filterMap fun e =>
    match e with
    | .makedirs _ => none
    | .write f => some (f.path, f.format, f.img.width)

/-- The saved files a list of events writes. -/
def written_files (evs : List FsEvent) : List SavedFile :=
  evs.filterMap fun e =>
    match e with
    | .makedirs _ => none
    | .write f => some f

/-- Execute events sequentially from global operation index `n`, against an
oracle saying whether the filesystem operation at a given index succeeds.
`main` wraps nothing in try/except, so the first failing operation raises
and aborts the batch: the result is the files accumulated so far, plus the
index of the failed operation if one failed. -/
def run_events : List FsEvent → (Nat → Bool) → Nat → List SavedFile →
    List SavedFile × Option Nat
  | [], _, _, files => (files, none)
  | e :: rest, ok, n, files =>
    if ok n then
      match e with
      | .makedirs _ => run_events rest ok (n + 1) files
      | .write f => run_events rest ok (n + 1) (files ++ [f])
    else (files, some n)

/-- Running the whole batch of `main` against a filesystem oracle. -/
def run_main (env : FontEnv) (ok : Nat → Bool) : List SavedFile × Option Nat :=
  run_events (main_events env) ok 0 []

/-- Width of the bounding box of a rectangle draw call. -/
def rect_width : DrawOp → Int
  | .rectangle x0 _ x1 _ _ => x1 - x0
  | _ => 0

/-- Height of the bounding box of a rectangle draw call. -/
def rect_height : DrawOp → Int
  | .rectangle _ y0 _ y1 _ => y1 - y0
  | _ => 0

/-- Width of the bounding box of an ellipse draw call (the horizontal
diameter of the circle). -/
def ellipse_width : DrawOp → Int
  | .ellipse x0 _ x1 _ _ => x1 - x0
  | _ => 0

/-- Height of the bounding box of an ellipse draw call (the vertical
diameter of the circle). -/
def ellipse_height : DrawOp → Int
  | .ellipse _ y0 _ y1 _ => y1 - y0
  | _ => 0

/-- A concrete "ID" bounding box, standing for metrics of some font. -/
def bbox0 : TextBBox := ⟨0, 3, 30, 13⟩

/-- A second concrete "ID" bounding box with a different text height. -/
def bbox1 : TextBBox := ⟨0, 2, 12, 10⟩

/-- An environment where neither hard-coded truetype path is available. -/
def env0 : FontEnv := ⟨none, none, ⟨bbox1⟩⟩

/-- An environment where the DejaVu font path loads. -/
def env_dejavu : FontEnv := ⟨some ⟨bbox0⟩, none, ⟨bbox1⟩⟩

/-- An environment where only the Arial font path loads, its metrics equal
to those of the DejaVu font of `env_dejavu`. -/
def env_arial : FontEnv := ⟨none, some ⟨bbox0⟩, ⟨bbox1⟩⟩

/-- `pydiv` on natural-number inputs is natural-number division. -/
theorem pydiv_natCast (m k : Nat) :
    pydiv (m : Int) (k : Int) = ((m / k : Nat) : Int) := by
  cases m with
  | zero => simp [pydiv]
  | succ n => rfl

/-- C5: the badge circle is the first draw call of `create_icon`, and its
bounding box is `[size // 20, size // 20, size - size // 20,
size - size // 20]`. -/
theorem create_icon_badge_bbox (size : Nat) (env : FontEnv) :
    (create_icon size env).ops.head? =
      some (DrawOp.ellipse ((size / 20 : Nat) : Int) ((size / 20 : Nat) : Int)
        ((size : Int) - ((size / 20 : Nat) : Int))
        ((size : Int) - ((size / 20 : Nat) : Int))
        (Fill.rgb 33 150 243)) := rfl

/-- C6: `create_icon size path` writes a PNG file at `path` whose image is
exactly `size × size`, in mode RGBA, initialized fully transparent. -/
theorem create_icon_file_shape (size : Nat) (path : String) (env : FontEnv) :
    (create_icon_file size path env).format = "PNG" ∧
    (create_icon_file size path env).path = path ∧
    (create_icon_file size path env).img.width = size ∧
    (create_icon_file size path env).img.height = size ∧
    (create_icon_file size path env).img.mode = "RGBA" ∧
    (create_icon_file size path env).img.background = Fill.rgba 0 0 0 0 :=
  ⟨rfl, rfl, rfl, rfl, rfl, rfl⟩

/-- C4: font resolution tries DejaVu, then Arial, then the built-in
default, so it succeeds whichever of the two preferred paths are
unavailable, and `create_icon` always produces a valid `size × size` RGBA
image in every font environment. -/
theorem create_icon_font_fallback (size : Nat) (env : FontEnv)
    (f fb : Font) (a : Option Font) :
    resolve_font ⟨some f, a, fb⟩ = f ∧
    resolve_font ⟨none, some f, fb⟩ = f ∧
    resolve_font ⟨none, none, fb⟩ = fb ∧
    (create_icon size env).width = size ∧
    (create_icon size env).height = size ∧
    (create_icon size env).mode = "RGBA" :=
  ⟨rfl, rfl, rfl, rfl, rfl, rfl⟩

/-- C1 counterexample: at `size = 48` the camera-body rectangle drawn by
`create_icon` is 8 pixels wide but only 4 pixels tall, so it is not a
square of side `48 // 6 = 8`. -/
theorem camera_rect_not_square :
    camera_rect 48 (resolve_font env0).idBBox ∈ (create_icon 48 env0).ops ∧
    rect_width (camera_rect 48 (resolve_font env0).idBBox) = 8 ∧
    rect_height (camera_rect 48 (resolve_font env0).idBBox) = 4 ∧
    rect_height (camera_rect 48 (resolve_font env0).idBBox) ≠ ((48 / 6 : Nat) : Int) := by
  decide

/-- C1 amended: the camera-body rectangle has width `size // 6` and height
`(size // 6) // 2`, and the diameter of the lens circle equals
`(size // 6) // 3`. -/
theorem camera_rect_and_lens_dims (size : Nat) (env : FontEnv) :
    camera_rect size (resolve_font env).idBBox ∈ (create_icon size env).ops ∧
    lens_op size (resolve_font env).idBBox ∈ (create_icon size env).ops ∧
    rect_width (camera_rect size (resolve_font env).idBBox) = ((size / 6 : Nat) : Int) ∧
    rect_height (camera_rect size (resolve_font env).idBBox) = ((size / 6 / 2 : Nat) : Int) ∧
    ellipse_width (lens_op size (resolve_font env).idBBox) = ((size / 6 / 3 : Nat) : Int) ∧
    ellipse_height (lens_op size (resolve_font env).idBBox) = ((size / 6 / 3 : Nat) : Int) := by
  refine ⟨?_, ?_, ?_, ?_, ?_, ?_⟩
  · simp [create_icon]
  · simp [create_icon]
  · simp [rect_width, camera_rect, cam_size]
  · simp only [rect_height, camera_rect, cam_size]
    have h := pydiv_natCast (size / 6) 2
    simp only [Nat.cast_ofNat] at h
    omega
  · simp only [ellipse_width, lens_op, lens_size, cam_size]
    omega
  · simp only [ellipse_height, lens_op, lens_size, cam_size]
    omega

/-- C3: `main` creates exactly the five mipmap directories and writes
exactly ten PNG files, `ic_launcher.png` and `ic_launcher_round.png` in
each directory, each rendered at the pixel size of that folder. -/
theorem main_dirs_and_files (env : FontEnv) :
    dirs_created (main_events env) =
      ["android/app/src/main/res/mipmap-mdpi",
       "android/app/src/main/res/mipmap-hdpi",
       "android/app/src/main/res/mipmap-xhdpi",
       "android/app/src/main/res/mipmap-xxhdpi",
       "android/app/src/main/res/mipmap-xxxhdpi"] ∧
    files_written (main_events env) =
      [("android/app/src/main/res/mipmap-mdpi/ic_launcher.png", "PNG", 48),
       ("android/app/src/main/res/mipmap-mdpi/ic_launcher_round.png", "PNG", 48),
       ("android/app/src/main/res/mipmap-hdpi/ic_launcher.png", "PNG", 72),
       ("android/app/src/main/res/mipmap-hdpi/ic_launcher_round.png", "PNG", 72),
       ("android/app/src/main/res/mipmap-xhdpi/ic_launcher.png", "PNG", 96),
       ("android/app/src/main/res/mipmap-xhdpi/ic_launcher_round.png", "PNG", 96),
       ("android/app/src/main/res/mipmap-xxhdpi/ic_launcher.png", "PNG", 144),
       ("android/app/src/main/res/mipmap-xxhdpi/ic_launcher_round.png", "PNG", 144),
       ("android/app/src/main/res/mipmap-xxxhdpi/ic_launcher.png", "PNG", 192),
       ("android/app/src/main/res/mipmap-xxxhdpi/ic_launcher_round.png", "PNG", 192)] :=
  ⟨rfl, rfl⟩

/-- C2: the gradient overlay consists of exactly one band per index `i` in
`0 .. size//2 - 1`, laid down right after the badge, and band `i` carries
alpha `⌊30·i / (size//2)⌋`. -/
theorem gradient_band_count_and_alpha (size : Nat) (env : FontEnv) :
    (∃ rest, (create_icon size env).ops =
      badge_op size :: (gradient_ops size ++ rest)) ∧
    (gradient_ops size).length = size / 2 ∧
    ∀ i, i < size / 2 →
      (gradient_ops size)[i]? =
        some (DrawOp.ellipse ((size / 20 : Nat) : Int)
          (((size / 20 : Nat) : Int) + (i : Int))
          ((size : Int) - ((size / 20 : Nat) : Int))
          ((size : Int) - ((size / 20 : Nat) : Int))
          (Fill.rgba 0 0 0 (30 * i / (size / 2)))) ∧
      band_alpha (size / 2) i = some (30 * i / (size / 2)) := by
  refine ⟨⟨_, rfl⟩, by simp [gradient_ops], ?_⟩
  intro i hi
  constructor
  · simp [gradient_ops, band, margin, hi]
  · simp only [band_alpha, if_neg (by omega : ¬ size / 2 = 0)]

/-- Witness for C2 at `size = 48`, band `i = 10`: alpha is
`⌊30·10/24⌋ = 12`. -/
theorem gradient_band_count_and_alpha_witness :
    10 < 48 / 2 ∧
    (gradient_ops 48)[10]? =
      some (DrawOp.ellipse 2 12 46 46 (Fill.rgba 0 0 0 12)) ∧
    band_alpha 24 10 = some 12 := by
  have h := (gradient_band_count_and_alpha 48 env0).2.2 10 (by decide)
  exact ⟨by decide, by simpa using h.1, by simpa using h.2⟩

/-- C7: for each entry of the folder→size table, the round icon is
rendered by the same `create_icon` at the same size as the standard icon,
so the two files have identical image content and differ only in path. -/
theorem round_icon_eq_standard (env : FontEnv) (p : String × Nat)
    (hp : p ∈ sizes) :
    (round_icon env p).img = (standard_icon env p).img ∧
    (round_icon env p).img = create_icon p.2 env ∧
    (round_icon env p).format = (standard_icon env p).format ∧
    (round_icon env p).path ≠ (standard_icon env p).path := by
  fin_cases hp <;>
    exact ⟨rfl, rfl, rfl, by simp only [round_icon, standard_icon, create_icon_file]; decide⟩

/-- Witness for C7 on the first table entry, `("mipmap-mdpi", 48)`. -/
theorem round_icon_eq_standard_witness :
    ("mipmap-mdpi", 48) ∈ sizes ∧
    (round_icon env0 ("mipmap-mdpi", 48)).img =
      (standard_icon env0 ("mipmap-mdpi", 48)).img ∧
    (round_icon env0 ("mipmap-mdpi", 48)).path ≠
      (standard_icon env0 ("mipmap-mdpi", 48)).path :=
  ⟨by decide, (round_icon_eq_standard env0 ("mipmap-mdpi", 48) (by decide)).1,
   (round_icon_eq_standard env0 ("mipmap-mdpi", 48) (by decide)).2.2.2⟩

/-- C8 counterexample: the drawing operations are not a function of `size`
alone — with the DejaVu font present versus absent (the built-in fallback
having different "ID" metrics), `create_icon` at the same `size = 48`
places the camera body at a different `cam_y` and produces different draw
operations, a geometric difference, not font rasterization. -/
theorem create_icon_depends_on_font_metrics :
    cam_y 48 (resolve_font env_dejavu).idBBox ≠
      cam_y 48 (resolve_font env0).idBBox ∧
    create_icon 48 env_dejavu ≠ create_icon 48 env0 := by
  decide

/-- C8 amended: every drawing operation of `create_icon` is a
deterministic function of `size` and the "ID" bounding box of the resolved
font; the badge and gradient portion depends on `size` alone, and two
invocations at the same `size` whose font environments resolve to equal
"ID" metrics perform identical drawing operations. -/
theorem create_icon_deterministic (size : Nat) (env1 env2 : FontEnv) :
    (create_icon size env1).ops.take (size / 2 + 1) =
      (create_icon size env2).ops.take (size / 2 + 1) ∧
    ((resolve_font env1).idBBox = (resolve_font env2).idBBox →
      create_icon size env1 = create_icon size env2) := by
  constructor
  · have hlen : (gradient_ops size).length = size / 2 := by simp [gradient_ops]
    simp only [create_icon, List.take_succ_cons, ← hlen, List.take_left]
  · intro h
    simp only [create_icon, h]

/-- Witness for C8: `env_dejavu` and `env_arial` resolve to fonts with the
same "ID" metrics, so `create_icon 48` draws identically under both. -/
theorem create_icon_deterministic_witness :
    (resolve_font env_dejavu).idBBox = (resolve_font env_arial).idBBox ∧
    create_icon 48 env_dejavu = create_icon 48 env_arial :=
  ⟨by decide, (create_icon_deterministic 48 env_dejavu env_arial).2 (by decide)⟩

/-- If the filesystem operation at global index `n + k` is the first to
fail, executing events from index `n` stops there: the accumulated files
are exactly those already present plus the writes among the first `k`
events, and the failure index is reported. -/
theorem run_events_first_failure (evs : List FsEvent) (ok : Nat → Bool) :
    ∀ (k n : Nat) (files : List SavedFile), k < evs.length →
      (∀ j, j < k → ok (n + j) = true) → ok (n + k) = false →
      run_events evs ok n files =
        (files ++ written_files (evs.take k), some (n + k)) := by
  induction evs with
  | nil =>
    intro k n files hk _ _
    exact absurd hk (by simp)
  | cons e rest ih =>
    intro k n files hk hok hfail
    cases k with
    | zero =>
      have h0 : ok n = false := by simpa using hfail
      simp [run_events, h0, written_files]
    | succ k' =>
      have h0 : ok n = true := by simpa using hok 0 (Nat.succ_pos k')
      have hk' : k' < rest.length := by simpa using Nat.lt_of_succ_lt_succ hk
      have hok' : ∀ j, j < k' → ok (n + 1 + j) = true := by
        intro j hj
        have := hok (j + 1) (by omega)
        simpa [Nat.add_assoc, Nat.add_comm 1 j] using this
      have hfail' : ok (n + 1 + k') = false := by
        have : n + 1 + k' = n + (k' + 1) := by omega
        rw [this]; exact hfail
      cases e with
      | makedirs p =>
        simp only [run_events, h0, if_true]
        rw [ih k' (n + 1) files hk' hok' hfail']
        have hn : n + 1 + k' = n + (k' + 1) := by omega
        rw [hn, List.take_succ_cons]
        simp [written_files]
      | write f =>
        simp only [run_events, h0, if_true]
        rw [ih k' (n + 1) (files ++ [f]) hk' hok' hfail']
        have hn : n + 1 + k' = n + (k' + 1) := by omega
        rw [hn, List.take_succ_cons]
        simp [written_files]

/-- C9: if the filesystem operation at batch index `k` is the first to
fail, the whole batch aborts there: the files on disk are exactly those
written by the operations before index `k` (intact, with nothing rolled
back), no file of operation `k` or any later operation is written, and
the error index propagates uncaught. -/
theorem main_batch_aborts_at_first_failure (env : FontEnv) (ok : Nat → Bool)
    (k : Nat) (hk : k < (main_events env).length)
    (hbefore : ∀ j, j < k → ok j = true) (hfail : ok k = false) :
    run_main env ok =
      (written_files ((main_events env).take k), some k) := by
  have h := run_events_first_failure (main_events env) ok k 0 [] hk
    (by simpa using hbefore) (by simpa using hfail)
  simpa [run_main] using h

/-- Witness for C9: with the operation at index 4 (the `mipmap-hdpi`
standard-icon write) failing first, the batch stops having written exactly
the two `mipmap-mdpi` files, and reports failure index 4. -/
theorem main_batch_aborts_witness :
    4 < (main_events env0).length ∧
    (∀ j, j < 4 → (fun n => decide (n < 4)) j = true) ∧
    (fun n => decide (n < 4)) 4 = false ∧
    run_main env0 (fun n => decide (n < 4)) =
      (written_files ((main_events env0).take 4), some 4) ∧
    written_files ((main_events env0).take 4) =
      [standard_icon env0 ("mipmap-mdpi", 48), round_icon env0 ("mipmap-mdpi", 48)] :=
  ⟨by decide, by decide, by decide,
   main_batch_aborts_at_first_failure env0 (fun n => decide (n < 4)) 4
     (by decide) (fun j hj => by simpa using hj) (by decide),
   rfl⟩

/-- C10: at `size = 1` the gradient loop body never runs (`size // 2 = 0`
bands), so the division by `size // 2` is never evaluated; and for every
size, every band-alpha computation the loop performs has a nonzero divisor
and succeeds — `create_icon` never raises `ZeroDivisionError`. -/
theorem gradient_no_division_by_zero :
    gradient_ops 1 = [] ∧ gradient_alphas 1 = [] ∧
    ∀ size : Nat, ∀ a ∈ gradient_alphas size, a.isSome = true := by
  refine ⟨rfl, rfl, ?_⟩
  intro size a ha
  simp only [gradient_alphas, List.mem_map, List.mem_range] at ha
  obtain ⟨i, hi, rfl⟩ := ha
  simp only [band_alpha, if_neg (by omega : ¬ size / 2 = 0), Option.isSome_some]

/-- Witness for C10 at `size = 2`: the single alpha computation of the
loop succeeds. -/
theorem gradient_no_division_by_zero_witness :
    band_alpha (2 / 2) 0 ∈ gradient_alphas 2 ∧
    (band_alpha (2 / 2) 0).isSome = true :=
  ⟨by decide,
   gradient_no_division_by_zero.2.2 2 (band_alpha (2 / 2) 0) (by decide)⟩

end IDSnap
